import Mathlib

/-!
Verification of the gcpeasy CLI (Go) against its natural-language
specification.  Go functions are shallowly embedded as Lean functions:
external process invocations become oracle parameters, standard input
becomes an `Option String` (with `none` modelling a failed read), printed
lines become `List String` results, and `os.Exit` codes become `Nat`
results.  Go strings are modelled as Lean `String`; the handful of Go
standard-library string helpers used by the code (`strings.Fields`,
`strings.Split`, `strings.TrimSpace`, `strings.Contains`, `strconv.Atoi`)
are re-implemented below by structural recursion on the character list so
that every definition is executable and kernel-reducible.
-/

namespace Gcpeasy

/-! ### Go standard-library string primitives -/

/-- Splits a character list at every character satisfying `p`, keeping
empty groups (the behaviour of Go `strings.Split` for a one-character
separator, and the first phase of `strings.Fields`). -/
def splitCh (p : Char → Bool) : List Char → List (List Char)
  | [] => [[]]
  | c :: cs =>
    let r := splitCh p cs
    if p c then [] :: r
    else
      match r with
      | [] => [[c]]
      | g :: gs => (c :: g) :: gs

/-- Go `strings.Split(s, sep)` for a one-character separator `sep`. -/
def goSplit (s : String) (sep : Char) : List String :=
  (splitCh (fun c => c == sep) s.data).map String.mk

/-- Go `strings.Fields`: split on runs of whitespace, dropping empties. -/
def goFields (s : String) : List String :=
  ((splitCh (fun c => c.isWhitespace) s.data).filter (fun g => g ≠ [])).map String.mk

/-- Drops leading whitespace characters. -/
def trimLeftCh : List Char → List Char
  | [] => []
  | c :: cs => if c.isWhitespace then trimLeftCh cs else c :: cs

/-- Go `strings.TrimSpace`: drop leading and trailing whitespace. -/
def goTrimSpace (s : String) : String :=
  String.mk ((trimLeftCh ((trimLeftCh s.data).reverse)).reverse)

/-- Numeric value of a non-empty all-digit character list, `none` otherwise. -/
def digitsVal (cs : List Char) : Option Nat :=
  if cs = [] then none
  else if cs.all Char.isDigit then
    some (cs.foldl (fun acc c => acc * 10 + (c.toNat - 48)) 0)
  else none

/-- Go `strconv.Atoi`: optional sign followed by at least one digit;
`none` models the error return. -/
def goAtoi (s : String) : Option Int :=
  match s.data with
  | '+' :: rest => (digitsVal rest).map (fun n => (n : Int))
  | '-' :: rest => (digitsVal rest).map (fun n => -(n : Int))
  | cs => (digitsVal cs).map (fun n => (n : Int))

/-- `isPrefixL a b` holds when `a` is a prefix of `b`. -/
def isPrefixL : List Char → List Char → Bool
  | [], _ => true
  | _ :: _, [] => false
  | a :: as, b :: bs => a == b && isPrefixL as bs

/-- `isSubL sub l` holds when `sub` occurs contiguously inside `l`. -/
def isSubL (sub : List Char) : List Char → Bool
  | [] => isPrefixL sub []
  | b :: bs => isPrefixL sub (b :: bs) || isSubL sub bs

/-- Go `strings.Contains(s, sub)`. -/
def strContains (s sub : String) : Bool := isSubL sub.data s.data

/-! ### internal/pod.go -/

/-- The system-namespace list from `isSystemNamespace` (internal/pod.go). -/
def systemNamespaces : List String :=
  ["kube-system", "kube-public", "kube-node-lease", "gke-system"]

/-- `isSystemNamespace` (internal/pod.go): linear scan of `systemNamespaces`. -/
def isSystemNamespace (ns : String) : Bool :=
  systemNamespaces.any (fun sysNs => ns == sysNs)

/-- Loop body of `FindApplicationPods` (internal/pod.go, lines 34-54):
skip empty lines, lines with fewer than three fields, system namespaces
and non-Running pods; otherwise append "namespace/name". -/
def FindApplicationPodsStep (acc : List String) (line : String) : List String :=
  if line = "" then acc
  else if (goFields line).length < 3 then acc
  else if isSystemNamespace ((goFields line).getD 0 "") ||
      (goFields line).getD 2 "" != "Running" then acc
  else acc ++ [(goFields line).getD 0 "" ++ "/" ++ (goFields line).getD 1 ""]

/-- `FindApplicationPods` (internal/pod.go) applied to the raw text output
of the pod-listing command: trim, split into lines, fold the loop body. -/
def FindApplicationPods (output : String) : List String :=
  (goSplit (goTrimSpace output) (Char.ofNat 10)).foldl FindApplicationPodsStep []

/-- Line filter written from the claim: at least three whitespace-separated
fields, namespace none of "kube-system", "kube-public", "kube-node-lease",
"gke-system" (the `systemNamespaces` literal), status field equal
to "Running". -/
def appPodLine (line : String) : Bool :=
  decide (3 ≤ (goFields line).length) &&
    decide ((goFields line).getD 0 "" ∉ systemNamespaces) &&
    ((goFields line).getD 2 "" == "Running")

/-- The "namespace/name" entry a qualifying line contributes. -/
def appPodEntry (line : String) : String :=
  (goFields line).getD 0 "" ++ "/" ++ (goFields line).getD 1 ""

/-- `FindApplicationPods` written from the claim: filter the lines of the
(trimmed) output by `appPodLine`, in order, and map each to its entry. -/
def FindApplicationPodsSpec (output : String) : List String :=
  ((goSplit (goTrimSpace output) (Char.ofNat 10)).filter appPodLine).map appPodEntry

/-! ### Interactive selection: `SelectPod` (internal/pod.go) and
`SelectCluster` (internal/kubernetes.go).

Standard input is modelled as `Option String`: `none` is a failed
`scanner.Scan()`, `some raw` is the line read.  Each `Run` variant returns
the printed lines together with the Go return value (`Except` error). -/

/-- The numbered menu entries printed by the selection loops
(`fmt.Printf("%d. %s\n", i+1, pod)`). -/
def numberedMenu (items : List String) : List String :=
  (List.range items.length).map (fun i => toString (i + 1) ++ ". " ++ items.getD i "")

/-- All lines `SelectPod` prints before reading input. -/
def podMenuLines (pods : List String) : List String :=
  ["📋 Found " ++ toString pods.length ++ " pod(s):", ""] ++
    numberedMenu pods ++
    ["", "Select pod (number, or \x27q\x27 to quit): "]

/-- `SelectPod` (internal/pod.go, lines 125-158): printed lines and result. -/
def SelectPodRun (pods : List String) (inp : Option String) :
    List String × Except String String :=
  if pods.length = 0 then ([], .error "no pods available")
  else
    match inp with
    | none => (podMenuLines pods, .error "failed to read input")
    | some raw =>
      if goTrimSpace raw = "q" then (podMenuLines pods, .error "cancelled by user")
      else
        match goAtoi (goTrimSpace raw) with
        | none => (podMenuLines pods, .error ("invalid selection: " ++ goTrimSpace raw))
        | some num =>
          if num < 1 ∨ (pods.length : Int) < num then
            (podMenuLines pods, .error ("invalid selection: " ++ goTrimSpace raw))
          else (podMenuLines pods, .ok (pods.getD ((num - 1).toNat) ""))

/-- The return value of `SelectPod`. -/
def SelectPod (pods : List String) (inp : Option String) : Except String String :=
  (SelectPodRun pods inp).2

/-- `ClusterInfo` (internal/kubernetes.go). -/
structure ClusterInfo where
  Name : String
  Location : String
deriving DecidableEq

/-- All lines `SelectCluster` prints before reading input (multi-cluster case). -/
def clusterMenuLines (clusters : List ClusterInfo) : List String :=
  ["✅ Found " ++ toString clusters.length ++ " clusters:", ""] ++
    (List.range clusters.length).map (fun i =>
      toString (i + 1) ++ ". " ++ (clusters.getD i ⟨"", ""⟩).Name ++ " (" ++
        (clusters.getD i ⟨"", ""⟩).Location ++ ")") ++
    ["", "Select cluster (number, or \x27q\x27 to quit): "]

/-- `SelectCluster` (internal/kubernetes.go, lines 47-87): printed lines and
result.  A single cluster is returned directly without touching `inp`. -/
def SelectClusterRun (clusters : List ClusterInfo) (inp : Option String) :
    List String × Except String ClusterInfo :=
  if clusters.length = 0 then ([], .error "no clusters available")
  else if clusters.length = 1 then
    (["✅ Found 1 cluster: " ++ (clusters.getD 0 ⟨"", ""⟩).Name ++ " in " ++
        (clusters.getD 0 ⟨"", ""⟩).Location],
      .ok (clusters.getD 0 ⟨"", ""⟩))
  else
    match inp with
    | none => (clusterMenuLines clusters, .error "failed to read input")
    | some raw =>
      if goTrimSpace raw = "q" then
        (clusterMenuLines clusters, .error "cancelled by user")
      else
        match goAtoi (goTrimSpace raw) with
        | none =>
          (clusterMenuLines clusters, .error ("invalid selection: " ++ goTrimSpace raw))
        | some num =>
          if num < 1 ∨ (clusters.length : Int) < num then
            (clusterMenuLines clusters, .error ("invalid selection: " ++ goTrimSpace raw))
          else (clusterMenuLines clusters, .ok (clusters.getD ((num - 1).toNat) ⟨"", ""⟩))

/-- The return value of `SelectCluster`. -/
def SelectCluster (clusters : List ClusterInfo) (inp : Option String) :
    Except String ClusterInfo :=
  (SelectClusterRun clusters inp).2

/-- The call-site error pattern repeated verbatim in runShell (cmd/shell.go),
listPods / runPodLogs / runPodShell (cmd/pod.go), listPodsWithStatus
(cmd/pods.go), runRailsConsole (cmd/rails.go) and selectClusterInteractive
(cmd/cluster.go): an error whose message contains "cancelled by user"
(Go `strings.Contains`) is suppressed by printing "Cancelled." and
returning nil (`none`); any other error message is propagated (`some`). -/
def cancelCheck (e : String) : List String × Option String :=
  if strContains e "cancelled by user" then (["Cancelled."], none)
  else ([], some e)

/-! ### cobra `Run` wrappers of every command -/

/-- The registered commands of the CLI. -/
inductive Command
  | login | logout | envList | envSelect | clusterList | clusterSelect
  | podList | podLogs | podShell | shell | pods | logs | railsConsole
deriving DecidableEq

/-- The authentication commands named by the claim. -/
def isAuthCommand : Command → Bool
  | .login => true
  | .logout => true
  | _ => false

/-- Each command's cobra `Run` wrapper, given its handler's return value:
the printed error lines and the process exit status.  Non-authentication
wrappers print `fmt.Printf("Error ...: %v\n", err)` and return (the process
then exits 0); the login/logout wrappers (cmd/auth.go, cmd/login.go) print
to stderr and call `os.Exit(1)`. -/
def commandRun : Command → Except String Unit → List String × Nat
  | _, .ok _ => ([], 0)
  | .login, .error e => (["Error during login: " ++ e], 1)
  | .logout, .error e => (["Error during logout: " ++ e], 1)
  | .envList, .error e => (["Error listing environments: " ++ e], 0)
  | .envSelect, .error e => (["Error selecting environment: " ++ e], 0)
  | .clusterList, .error e => (["Error listing clusters: " ++ e], 0)
  | .clusterSelect, .error e => (["Error selecting cluster: " ++ e], 0)
  | .podList, .error e => (["Error listing pods: " ++ e], 0)
  | .podLogs, .error e => (["Error viewing logs: " ++ e], 0)
  | .podShell, .error e => (["Error accessing shell: " ++ e], 0)
  | .shell, .error e => (["Error accessing shell: " ++ e], 0)
  | .pods, .error e => (["Error listing pods: " ++ e], 0)
  | .logs, .error e => (["Error viewing logs: " ++ e], 0)
  | .railsConsole, .error e => (["Error accessing Rails console: " ++ e], 0)

/-! ### viewMultiplePodLogs (cmd/pod.go, lines 236-280)

Each goroutine runs `viewPodLogs` for its pod; the per-pod outcome is the
oracle `logErr` (`none` = success, `some e` = the error message).  A failing
goroutine sends `fmt.Errorf("%s: %w", p, err)` on the channel.  The
scheduler's delivery order is the permutation `order` of task indices; the
caller drains the channel after `wg.Wait()` and keeps the first error. -/

/-- The value a pod's goroutine sends on the error channel, if any. -/
def taskError (logErr : String → Option String) (p : String) : Option String :=
  (logErr p).map (fun e => p ++ ": " ++ e)

/-- `viewMultiplePodLogs`: guard the empty list, then wait for all tasks and
surface the first error received (in scheduler order `order`). -/
def viewMultiplePodLogs (pods : List String) (logErr : String → Option String)
    (order : List Nat) : Except String Unit :=
  if pods.length = 0 then .error "no pods provided"
  else
    match (order.filterMap (fun i => pods[i]?.bind (taskError logErr))).head? with
    | some e => .error e
    | none => .ok ()

/-- The guard in `runPodLogs` (cmd/pod.go, lines 208-220): with no pods it
prints a notice and returns nil, so `viewMultiplePodLogs` is only ever
called with a non-empty list. -/
def runPodLogsAllBranch (pods : List String) (logErr : String → Option String)
    (order : List Nat) : Except String Unit :=
  if pods.length = 0 then .ok ()
  else viewMultiplePodLogs pods logErr order

/-! ### connectToShell (cmd/shell.go, cmd/pod.go) and
connectToRailsConsole (cmd/rails.go)

`execOk ns pod sh` is the success of `kubectl exec -it pod -n ns -- sh`;
`consoleOk ns pod c` the success of `kubectl exec -it pod -n ns -- sh -c c`;
`bashRun ns pod` the result of the fallback `kubectl exec ... /bin/bash`. -/

/-- The shell preference order tried by `connectToShell`. -/
def shells : List String := ["/bin/bash", "/bin/zsh", "/bin/sh"]

/-- The sequential attempt loop of `connectToShell`: return nil at the first
success, otherwise fail with the sentinel error. -/
def tryShellList (execOk : String → Bool) : List String → Except String Unit
  | [] => .error "no suitable shell found in pod"
  | sh :: rest => if execOk sh then .ok () else tryShellList execOk rest

/-- The commands actually attempted by a sequential try-loop: every command
up to and including the first success. -/
def attemptList (ok : String → Bool) : List String → List String
  | [] => []
  | c :: rest => if ok c then [c] else c :: attemptList ok rest

/-- `connectToShell` (cmd/shell.go lines 63-96 and its duplicate in
cmd/pod.go lines 382-415). -/
def connectToShell (pod : String) (execOk : String → String → String → Bool) :
    Except String Unit :=
  if (goSplit pod (Char.ofNat 47)).length ≠ 2 then
    .error ("invalid pod format: " ++ pod)
  else
    tryShellList
      (execOk ((goSplit pod (Char.ofNat 47)).getD 0 "")
        ((goSplit pod (Char.ofNat 47)).getD 1 ""))
      shells

/-- The shells `connectToShell` actually attempts. -/
def connectToShellAttempts (pod : String)
    (execOk : String → String → String → Bool) : List String :=
  if (goSplit pod (Char.ofNat 47)).length ≠ 2 then []
  else
    attemptList
      (execOk ((goSplit pod (Char.ofNat 47)).getD 0 "")
        ((goSplit pod (Char.ofNat 47)).getD 1 ""))
      shells

/-- The console invocations tried by `connectToRailsConsole`, in order. -/
def railsConsoleCommands : List String :=
  ["bundle exec rails console", "bundle exec rails c", "rails console",
   "rails c", "bin/rails console", "bin/rails c"]

/-- The sequential attempt loop of `connectToRailsConsole`: nil at the first
success, otherwise the fallback shell invocation's own result. -/
def tryConsoleList (ok : String → Bool) (fallback : Except String Unit) :
    List String → Except String Unit
  | [] => fallback
  | c :: rest => if ok c then .ok () else tryConsoleList ok fallback rest

/-- `connectToRailsConsole` (cmd/rails.go, lines 115-162). -/
def connectToRailsConsole (pod : String)
    (consoleOk : String → String → String → Bool)
    (bashRun : String → String → Except String Unit) : Except String Unit :=
  if (goSplit pod (Char.ofNat 47)).length ≠ 2 then
    .error ("invalid pod format: " ++ pod)
  else
    tryConsoleList
      (consoleOk ((goSplit pod (Char.ofNat 47)).getD 0 "")
        ((goSplit pod (Char.ofNat 47)).getD 1 ""))
      (bashRun ((goSplit pod (Char.ofNat 47)).getD 0 "")
        ((goSplit pod (Char.ofNat 47)).getD 1 ""))
      railsConsoleCommands

/-! ### selectEnvironment (cmd/env.go, lines 174-217) -/

/-- `GCPProject` (cmd/env.go). -/
structure GCPProject where
  ProjectID : String
  Name : String
deriving DecidableEq

/-- The exact-match predicate of the fallback loop in `selectEnvironment`. -/
def projectMatches (identifier : String) (p : GCPProject) : Bool :=
  p.ProjectID == identifier || p.Name == identifier

/-- The project `selectEnvironment` resolves `identifier` to: a 1-based
index when the identifier parses as an in-range integer, otherwise the
first project whose ID or name equals the identifier, otherwise none. -/
def selectEnvironmentChoice (identifier : String) (projects : List GCPProject) :
    Option GCPProject :=
  let byNumber : Option GCPProject :=
    match goAtoi identifier with
    | some num =>
      if 1 ≤ num ∧ num ≤ (projects.length : Int) then projects[(num - 1).toNat]?
      else none
    | none => none
  match byNumber with
  | some p => some p
  | none => projects.find? (projectMatches identifier)

/-- `selectEnvironment` after the authentication and project-discovery
steps: printed lines, and the project ID passed to `switchToProject`
(i.e. to `gcloud config set project`) or `none` when no switch happens. -/
def selectEnvironment (identifier : String) (projects : List GCPProject) :
    List String × Option String :=
  if projects.length = 0 then (["No GCP projects found."], none)
  else
    match selectEnvironmentChoice identifier projects with
    | some p => (["Switching to project: " ++ p.ProjectID], some p.ProjectID)
    | none =>
      (["Environment \x27" ++ identifier ++ "\x27 not found.",
        "Use \x27gcpeasy env list\x27 to see available environments."], none)

/-! ### truncate (cmd/pod.go lines 432-437, cmd/pods.go lines 99-104)

Go `len` and slicing act on bytes, so the Go string is modelled as its byte
list.  `none` models the runtime panic of the slice `s[:maxLen-3]` when the
index is negative. -/

/-- `truncate`: return `s` unchanged when it fits, otherwise its first
`maxLen-3` bytes followed by "..." (bytes 46,46,46). -/
def truncate (s : List Nat) (maxLen : Int) : Option (List Nat) :=
  if (s.length : Int) ≤ maxLen then some s
  else if maxLen - 3 < 0 then none
  else some (s.take (maxLen - 3).toNat ++ [46, 46, 46])

/-- The `maxLen` arguments at every in-repo `truncate` call site
(cmd/pod.go detailed table 15/35/20, simple list 15/35; cmd/pods.go table
15/35/20). -/
def callerTruncateMaxLens : List Int := [15, 35, 20, 15, 35, 15, 35, 20]

theorem isSystemNamespace_iff (ns : String) :
    isSystemNamespace ns = true ↔ ns ∈ systemNamespaces := by
  simp only [isSystemNamespace, List.any_eq_true, beq_iff_eq]
  constructor
  · rintro ⟨x, hx, h⟩
    exact h ▸ hx
  · intro h
    exact ⟨ns, h, rfl⟩

theorem findApplicationPodsStep_eq (acc : List String) (line : String) :
    FindApplicationPodsStep acc line =
      if appPodLine line then acc ++ [appPodEntry line] else acc := by
  by_cases hempty : line = ""
  · subst hempty
    rfl
  · by_cases hlen : (goFields line).length < 3
    · have hA : appPodLine line = false := by
        have : ¬ 3 ≤ (goFields line).length := by omega
        simp [appPodLine, this]
      simp [FindApplicationPodsStep, hempty, hlen, hA]
    · have hlen3 : 3 ≤ (goFields line).length := by omega
      by_cases hsys : ((goFields line)[0]?.getD "") ∈ systemNamespaces
      · have hb : isSystemNamespace ((goFields line)[0]?.getD "") = true :=
          (isSystemNamespace_iff _).mpr hsys
        have hA : appPodLine line = false := by simp [appPodLine, hsys]
        simp [FindApplicationPodsStep, hempty, hlen, hb, hA]
      · have hb : isSystemNamespace ((goFields line)[0]?.getD "") = false := by
          rw [Bool.eq_false_iff]
          intro h
          exact hsys ((isSystemNamespace_iff _).mp h)
        by_cases hrun : (goFields line)[2]?.getD "" = "Running"
        · have hA : appPodLine line = true := by
            simp [appPodLine, hlen3, hsys, hrun]
          simp [FindApplicationPodsStep, hempty, hlen, hb, hrun, hA, appPodEntry]
        · have hA : appPodLine line = false := by simp [appPodLine, hrun]
          simp [FindApplicationPodsStep, hempty, hlen, hb, hrun, hA, bne]

theorem findApplicationPods_foldl (l : List String) (acc : List String) :
    l.foldl FindApplicationPodsStep acc = acc ++ (l.filter appPodLine).map appPodEntry := by
  induction l generalizing acc with
  | nil => simp
  | cons line rest ih =>
    simp only [List.foldl_cons, List.filter_cons]
    rw [ih, findApplicationPodsStep_eq]
    by_cases h : appPodLine line = true
    · simp [h]
    · have h2 : appPodLine line = false := by
        cases hx : appPodLine line
        · rfl
        · exact absurd hx h
      simp [h2]

theorem tryShellList_ok_iff (ok : String → Bool) (l : List String) :
    tryShellList ok l = .ok () ↔ l.any ok = true := by
  induction l with
  | nil => simp [tryShellList]
  | cons c rest ih =>
    by_cases h : ok c
    · simp [tryShellList, h]
    · simp [tryShellList, h, ih]

theorem tryShellList_error_iff (ok : String → Bool) (l : List String) :
    tryShellList ok l = .error "no suitable shell found in pod" ↔
      l.all (fun s => !ok s) = true := by
  induction l with
  | nil => simp [tryShellList]
  | cons c rest ih =>
    by_cases h : ok c
    · simp [tryShellList, h]
    · simp [tryShellList, h, ih]

theorem attemptList_eq (ok : String → Bool) (l : List String) :
    attemptList ok l =
      l.takeWhile (fun c => !ok c) ++ (l.dropWhile (fun c => !ok c)).take 1 := by
  induction l with
  | nil => simp [attemptList]
  | cons c rest ih =>
    by_cases h : ok c
    · simp [attemptList, h, List.takeWhile_cons, List.dropWhile_cons]
    · simp [attemptList, h, List.takeWhile_cons, List.dropWhile_cons, ih]

theorem tryConsoleList_eq (ok : String → Bool) (fallback : Except String Unit)
    (l : List String) :
    tryConsoleList ok fallback l =
      if l.all (fun c => !ok c) then fallback else .ok () := by
  induction l with
  | nil => simp [tryConsoleList]
  | cons c rest ih =>
    by_cases h : ok c
    · simp [tryConsoleList, h]
    · simp [tryConsoleList, h, ih]

/-- C6: `connectToShell` on a "namespace/name" identifier tries
/bin/bash, /bin/zsh, /bin/sh in exactly that order, stopping at the first
success and returning nil; it returns the error "no suitable shell found
in pod" iff all three attempts fail; an identifier that does not split
into exactly two "/"-separated parts yields the "invalid pod format"
error with no shell attempted. -/
theorem connectToShell_correct (pod : String)
    (execOk : String → String → String → Bool) :
    ((goSplit pod (Char.ofNat 47)).length ≠ 2 →
      connectToShell pod execOk = .error ("invalid pod format: " ++ pod) ∧
      connectToShellAttempts pod execOk = []) ∧
    (∀ ns pName, goSplit pod (Char.ofNat 47) = [ns, pName] →
      (connectToShell pod execOk = .ok () ↔ shells.any (execOk ns pName) = true) ∧
      (connectToShell pod execOk = .error "no suitable shell found in pod" ↔
        shells.all (fun sh => !execOk ns pName sh) = true) ∧
      connectToShellAttempts pod execOk =
        shells.takeWhile (fun sh => !execOk ns pName sh) ++
          (shells.dropWhile (fun sh => !execOk ns pName sh)).take 1) := by
  constructor
  · intro h
    constructor
    · simp [connectToShell, h]
    · simp [connectToShellAttempts, h]
  · intro ns pName heq
    have hlen : (goSplit pod (Char.ofNat 47)).length = 2 := by rw [heq]; rfl
    refine ⟨?_, ?_, ?_⟩
    · rw [connectToShell]
      simp [hlen, heq, tryShellList_ok_iff]
    · rw [connectToShell]
      simp [hlen, heq, tryShellList_error_iff]
    · rw [connectToShellAttempts]
      simp [hlen, heq, attemptList_eq]

/-- Witness for C6: a pod where /bin/bash fails and /bin/zsh succeeds is
attempted in order bash then zsh and returns nil; a malformed identifier
is rejected. -/
theorem connectToShell_correct_witness :
    connectToShell "default/web" (fun _ _ sh => sh == "/bin/zsh") = .ok () ∧
    connectToShellAttempts "default/web" (fun _ _ sh => sh == "/bin/zsh") =
      ["/bin/bash", "/bin/zsh"] ∧
    connectToShell "badpod" (fun _ _ _ => true) =
      .error "invalid pod format: badpod" := by
  refine ⟨?_, ?_, ?_⟩
  · exact ((connectToShell_correct "default/web"
      (fun _ _ sh => sh == "/bin/zsh")).2 "default" "web" (by decide)).1.mpr (by decide)
  · rw [((connectToShell_correct "default/web"
      (fun _ _ sh => sh == "/bin/zsh")).2 "default" "web" (by decide)).2.2]
    decide
  · exact ((connectToShell_correct "badpod" (fun _ _ _ => true)).1 (by decide)).1

/-- C7: `connectToRailsConsole` tries the six console commands in the exact
listed order, returning nil at the first success; iff all six fail it
invokes the plain /bin/bash shell and returns that invocation's result as
its own. -/
theorem connectToRailsConsole_correct (pod : String)
    (consoleOk : String → String → String → Bool)
    (bashRun : String → String → Except String Unit) :
    ((goSplit pod (Char.ofNat 47)).length ≠ 2 →
      connectToRailsConsole pod consoleOk bashRun =
        .error ("invalid pod format: " ++ pod)) ∧
    (∀ ns pName, goSplit pod (Char.ofNat 47) = [ns, pName] →
      connectToRailsConsole pod consoleOk bashRun =
        (if railsConsoleCommands.all (fun c => !consoleOk ns pName c) then
          bashRun ns pName
        else .ok ()) ∧
      attemptList (consoleOk ns pName) railsConsoleCommands =
        railsConsoleCommands.takeWhile (fun c => !consoleOk ns pName c) ++
          (railsConsoleCommands.dropWhile (fun c => !consoleOk ns pName c)).take 1) := by
  constructor
  · intro h
    simp [connectToRailsConsole, h]
  · intro ns pName heq
    have hlen : (goSplit pod (Char.ofNat 47)).length = 2 := by rw [heq]; rfl
    constructor
    · rw [connectToRailsConsole]
      simp [hlen, heq, tryConsoleList_eq]
    · exact attemptList_eq _ _

/-- Witness for C7: with only "rails c" (the fourth command) succeeding the
console opens; with every command failing the result is exactly the
fallback shell invocation's result. -/
theorem connectToRailsConsole_correct_witness :
    connectToRailsConsole "default/web" (fun _ _ c => c == "rails c")
      (fun _ _ => .error "bash failed") = .ok () ∧
    connectToRailsConsole "default/web" (fun _ _ _ => false)
      (fun _ _ => .error "bash failed") = .error "bash failed" := by
  constructor
  · rw [((connectToRailsConsole_correct "default/web" (fun _ _ c => c == "rails c")
      (fun _ _ => .error "bash failed")).2 "default" "web" (by decide)).1]
    rfl
  · rw [((connectToRailsConsole_correct "default/web" (fun _ _ _ => false)
      (fun _ _ => .error "bash failed")).2 "default" "web" (by decide)).1]
    rfl

/-- C3: on a handler failure every non-authentication command wrapper
prints one user-facing message and the process exit status is 0 (the
handler just returns), while the authentication commands login and logout
exit with status 1; successful handlers always exit 0. -/
theorem commandRun_exit (c : Command) (e : String) :
    (commandRun c (.error e)).2 = (if isAuthCommand c then 1 else 0) ∧
    (commandRun c (.error e)).1.length = 1 ∧
    (commandRun c (.ok ())).2 = 0 := by
  cases c <;> simp [commandRun, isAuthCommand]

/-- C9: `truncate` returns `s` unchanged when it fits in `maxLen` bytes;
for `maxLen ≥ 3` and a longer `s` it returns the first `maxLen-3` bytes
followed by "...", a result of exactly `maxLen` bytes; for `maxLen < 3`
and a longer `s` the negative slice index panics (`none`); every in-repo
call site passes `maxLen ≥ 15`. -/
theorem truncate_correct (s : List Nat) (maxLen : Int) :
    ((s.length : Int) ≤ maxLen → truncate s maxLen = some s) ∧
    (3 ≤ maxLen → maxLen < (s.length : Int) →
      truncate s maxLen = some (s.take (maxLen - 3).toNat ++ [46, 46, 46]) ∧
      ∀ r, truncate s maxLen = some r → (r.length : Int) = maxLen) ∧
    (maxLen < 3 → maxLen < (s.length : Int) → truncate s maxLen = none) ∧
    (∀ m ∈ callerTruncateMaxLens, 15 ≤ m) := by
  refine ⟨?_, ?_, ?_, ?_⟩
  · intro h
    simp [truncate, h]
  · intro h3 hlt
    have hnle : ¬ (s.length : Int) ≤ maxLen := by omega
    have hneg : ¬ maxLen - 3 < 0 := by omega
    constructor
    · simp [truncate, hnle, hneg]
    · intro r hr
      simp only [truncate, if_neg hnle, if_neg hneg, Option.some.injEq] at hr
      have hle : (maxLen - 3).toNat ≤ s.length := by omega
      rw [← hr]
      simp [List.length_take, Nat.min_eq_left hle]
      omega
  · intro h3 hlt
    have hnle : ¬ (s.length : Int) ≤ maxLen := by omega
    have hneg : maxLen - 3 < 0 := by omega
    simp [truncate, hnle, hneg]
  · decide

/-- Witness for C9: a 20-byte string truncated at 15 keeps 12 bytes plus
"..." (15 bytes total); truncated at 2 it panics. -/
theorem truncate_correct_witness :
    truncate (List.replicate 20 97) 15 =
      some (List.replicate 12 97 ++ [46, 46, 46]) ∧
    truncate (List.replicate 20 97) 2 = none := by
  constructor
  · rw [((truncate_correct (List.replicate 20 97) 15).2.1 (by decide) (by decide)).1]
    decide
  · exact (truncate_correct (List.replicate 20 97) 2).2.2.1 (by decide) (by decide)

/-- C1: `FindApplicationPods` returns exactly the "namespace/name" pairs of
the lines of the pod-listing output that have at least three
whitespace-separated fields, a namespace outside the four system
namespaces, and status field "Running"; all other lines are excluded and
input line order is preserved (filter-then-map form). -/
theorem FindApplicationPods_correct (output : String) :
    FindApplicationPods output = FindApplicationPodsSpec output := by
  simp only [FindApplicationPods, FindApplicationPodsSpec]
  exact findApplicationPods_foldl _ []

theorem invalid_ne_cancel (t : String) :
    "invalid selection: " ++ t ≠ "cancelled by user" := by
  intro h
  have hl := congrArg String.length h
  rw [String.length_append] at hl
  rw [show ("invalid selection: " : String).length = 19 from rfl] at hl
  rw [show ("cancelled by user" : String).length = 17 from rfl] at hl
  omega

/-- C4: `SelectCluster` auto-selects a singleton list without consulting
input, fails on an empty list with "no clusters available", and with two
or more clusters resolves a valid 1-based numeric entry to that cluster
and yields an error for an unreadable, non-numeric, or out-of-range
entry. -/
theorem SelectCluster_correct (clusters : List ClusterInfo) (inp : Option String) :
    (clusters = [] → SelectCluster clusters inp = .error "no clusters available") ∧
    (∀ c, clusters = [c] → SelectCluster clusters inp = .ok c) ∧
    (2 ≤ clusters.length →
      (inp = none → SelectCluster clusters inp = .error "failed to read input") ∧
      (∀ raw num, inp = some raw → goAtoi (goTrimSpace raw) = some num →
        1 ≤ num → num ≤ (clusters.length : Int) →
        SelectCluster clusters inp = .ok (clusters.getD ((num - 1).toNat) ⟨"", ""⟩)) ∧
      (∀ raw, inp = some raw → goTrimSpace raw ≠ "q" →
        goAtoi (goTrimSpace raw) = none →
        SelectCluster clusters inp = .error ("invalid selection: " ++ goTrimSpace raw)) ∧
      (∀ raw num, inp = some raw → goAtoi (goTrimSpace raw) = some num →
        (num < 1 ∨ (clusters.length : Int) < num) →
        SelectCluster clusters inp = .error ("invalid selection: " ++ goTrimSpace raw))) := by
  refine ⟨?_, ?_, ?_⟩
  · intro h
    subst h
    rfl
  · intro c h
    subst h
    rfl
  · intro h2
    have h0 : ¬ clusters.length = 0 := by omega
    have h1 : ¬ clusters.length = 1 := by omega
    refine ⟨?_, ?_, ?_, ?_⟩
    · intro hn
      subst hn
      simp [SelectCluster, SelectClusterRun, h0, h1]
    · intro raw num hr hatoi hge hle
      subst hr
      have hq : ¬ goTrimSpace raw = "q" := by
        intro hqe
        rw [hqe] at hatoi
        rw [show goAtoi "q" = none from by decide] at hatoi
        exact Option.noConfusion hatoi
      have hcond : ¬ (num < 1 ∨ (clusters.length : Int) < num) := by omega
      simp [SelectCluster, SelectClusterRun, h0, h1, hq, hatoi, hcond]
    · intro raw hr hq hatoi
      subst hr
      simp [SelectCluster, SelectClusterRun, h0, h1, hq, hatoi]
    · intro raw num hr hatoi hcond
      subst hr
      have hq : ¬ goTrimSpace raw = "q" := by
        intro hqe
        rw [hqe] at hatoi
        rw [show goAtoi "q" = none from by decide] at hatoi
        exact Option.noConfusion hatoi
      simp [SelectCluster, SelectClusterRun, h0, h1, hq, hatoi, hcond]

/-- Witness for C4: a singleton auto-selects even with no readable input;
an empty list errors; with two clusters " 2 " selects the second, "abc"
and "3" are invalid selections. -/
theorem SelectCluster_correct_witness :
    SelectCluster [⟨"a", "r"⟩] none = .ok ⟨"a", "r"⟩ ∧
    SelectCluster ([] : List ClusterInfo) (some "1") = .error "no clusters available" ∧
    SelectCluster [⟨"c1", "r1"⟩, ⟨"c2", "r2"⟩] (some " 2 ") = .ok ⟨"c2", "r2"⟩ ∧
    SelectCluster [⟨"c1", "r1"⟩, ⟨"c2", "r2"⟩] (some "abc") =
      .error "invalid selection: abc" ∧
    SelectCluster [⟨"c1", "r1"⟩, ⟨"c2", "r2"⟩] (some "3") =
      .error "invalid selection: 3" := by
  refine ⟨?_, ?_, ?_, ?_, ?_⟩
  · exact (SelectCluster_correct [⟨"a", "r"⟩] none).2.1 ⟨"a", "r"⟩ rfl
  · exact (SelectCluster_correct ([] : List ClusterInfo) (some "1")).1 rfl
  · have h := ((SelectCluster_correct [⟨"c1", "r1"⟩, ⟨"c2", "r2"⟩]
      (some " 2 ")).2.2 (by decide)).2.1 " 2 " 2 rfl (by decide) (by decide) (by decide)
    rw [h]
    rfl
  · have h := ((SelectCluster_correct [⟨"c1", "r1"⟩, ⟨"c2", "r2"⟩]
      (some "abc")).2.2 (by decide)).2.2.1 "abc" rfl (by decide) (by decide)
    rw [h]
    rfl
  · have h := ((SelectCluster_correct [⟨"c1", "r1"⟩, ⟨"c2", "r2"⟩]
      (some "3")).2.2 (by decide)).2.2.2 "3" 3 rfl (by decide) (Or.inr (by decide))
    rw [h]
    rfl

/-- C10: `SelectPod` never auto-selects: for every non-empty list
(including singletons) it prints the full numbered menu and reads input
(failing with "failed to read input" when the read fails); an empty list
errors with "no pods available" without printing; the result is the
cancellation error exactly when the trimmed input is "q" (so "Q" is an
invalid selection); by contrast `SelectCluster` returns a singleton
without consulting input. -/
theorem SelectPod_correct (pods : List String) (inp : Option String) :
    (pods = [] → SelectPodRun pods inp = ([], .error "no pods available")) ∧
    (pods ≠ [] → (SelectPodRun pods inp).1 = podMenuLines pods) ∧
    (pods ≠ [] → inp = none → SelectPod pods inp = .error "failed to read input") ∧
    (∀ raw, pods ≠ [] →
      (SelectPod pods (some raw) = .error "cancelled by user" ↔
        goTrimSpace raw = "q")) ∧
    (∀ c : ClusterInfo, SelectCluster [c] inp = .ok c) ∧
    SelectPod ["default/web"] (some "Q") = .error "invalid selection: Q" := by
  refine ⟨?_, ?_, ?_, ?_, ?_, ?_⟩
  · intro h
    subst h
    rfl
  · intro h
    have h0 : ¬ pods.length = 0 := by simpa [List.length_eq_zero] using h
    cases inp with
    | none => simp [SelectPodRun, h0]
    | some raw =>
      simp only [SelectPodRun, if_neg h0]
      by_cases hq : goTrimSpace raw = "q"
      · simp [hq]
      · cases hatoi : goAtoi (goTrimSpace raw) with
        | none => simp [hq, hatoi]
        | some num =>
          by_cases hc : num < 1 ∨ (pods.length : Int) < num
          · simp [hq, hatoi, hc]
          · simp [hq, hatoi, hc]
  · intro h hn
    subst hn
    have h0 : ¬ pods.length = 0 := by simpa [List.length_eq_zero] using h
    simp [SelectPod, SelectPodRun, h0]
  · intro raw h
    have h0 : ¬ pods.length = 0 := by simpa [List.length_eq_zero] using h
    constructor
    · intro he
      by_contra hq
      simp only [SelectPod, SelectPodRun, if_neg h0, if_neg hq] at he
      cases hatoi : goAtoi (goTrimSpace raw) with
      | none =>
        rw [hatoi] at he
        simp only [Except.error.injEq] at he
        exact invalid_ne_cancel _ he
      | some num =>
        rw [hatoi] at he
        by_cases hc : num < 1 ∨ (pods.length : Int) < num
        · simp only [if_pos hc, Except.error.injEq] at he
          exact invalid_ne_cancel _ he
        · simp only [if_neg hc] at he
          exact Except.noConfusion he
    · intro hq
      simp [SelectPod, SelectPodRun, h0, hq]
  · intro c
    rfl
  · rfl

/-- Witness for C10: an empty list errors without printing, a singleton
still prints its menu and fails when the read fails, "q" cancels, and a
single cluster is returned with unreadable input. -/
theorem SelectPod_correct_witness :
    SelectPodRun ([] : List String) (some "1") = ([], .error "no pods available") ∧
    (SelectPodRun ["default/web"] none).1 = podMenuLines ["default/web"] ∧
    SelectPod ["default/web"] none = .error "failed to read input" ∧
    SelectPod ["default/web"] (some "q") = .error "cancelled by user" := by
  refine ⟨?_, ?_, ?_, ?_⟩
  · exact (SelectPod_correct ([] : List String) (some "1")).1 rfl
  · exact (SelectPod_correct ["default/web"] none).2.1 (by decide)
  · exact (SelectPod_correct ["default/web"] none).2.2.1 (by decide) rfl
  · exact ((SelectPod_correct ["default/web"] none).2.2.2.1 "q" (by decide)).mpr (by decide)

/-- C2: entering "q" (after trimming) at either interactive prompt yields
the error "cancelled by user"; the shared call-site pattern
(`cancelCheck`) detects it by substring match, prints "Cancelled." and
returns nil; and the substring match also fires for an invalid-selection
error that merely echoes such input. -/
theorem cancelled_flow (pods : List String) (raw : String) :
    (pods ≠ [] → goTrimSpace raw = "q" →
      SelectPod pods (some raw) = .error "cancelled by user") ∧
    (∀ clusters : List ClusterInfo, 2 ≤ clusters.length → goTrimSpace raw = "q" →
      SelectCluster clusters (some raw) = .error "cancelled by user") ∧
    cancelCheck "cancelled by user" = (["Cancelled."], none) ∧
    SelectPod ["default/web"] (some "cancelled by user") =
      .error "invalid selection: cancelled by user" ∧
    cancelCheck "invalid selection: cancelled by user" = (["Cancelled."], none) := by
  refine ⟨?_, ?_, ?_, ?_, ?_⟩
  · intro h hq
    have h0 : ¬ pods.length = 0 := by simpa [List.length_eq_zero] using h
    simp [SelectPod, SelectPodRun, h0, hq]
  · intro clusters h2 hq
    have h0 : ¬ clusters.length = 0 := by omega
    have h1 : ¬ clusters.length = 1 := by omega
    simp [SelectCluster, SelectClusterRun, h0, h1, hq]
  · rfl
  · rfl
  · rfl

/-- Witness for C2: pods and clusters given input " q " (trimming to "q")
both return the cancellation error. -/
theorem cancelled_flow_witness :
    SelectPod ["default/web"] (some " q ") = .error "cancelled by user" ∧
    SelectCluster [⟨"c1", "r1"⟩, ⟨"c2", "r2"⟩] (some " q ") =
      .error "cancelled by user" := by
  constructor
  · exact (cancelled_flow ["default/web"] " q ").1 (by decide) (by decide)
  · exact (cancelled_flow ["default/web"] " q ").2.1
      [⟨"c1", "r1"⟩, ⟨"c2", "r2"⟩] (by decide) (by decide)

/-- C8: `selectEnvironment` resolves an identifier first as an in-range
1-based integer index, otherwise as the first project whose ID or name
equals it exactly; when nothing matches it prints a not-found message and
performs no project switch (second component `none`); a resolved project
is switched to. -/
theorem selectEnvironment_correct (identifier : String) (projects : List GCPProject) :
    (∀ num : Int, goAtoi identifier = some num → 1 ≤ num →
      num ≤ (projects.length : Int) →
      selectEnvironmentChoice identifier projects = projects[(num - 1).toNat]?) ∧
    ((∀ num : Int, goAtoi identifier = some num →
        ¬(1 ≤ num ∧ num ≤ (projects.length : Int))) →
      selectEnvironmentChoice identifier projects =
        projects.find? (projectMatches identifier)) ∧
    (projects ≠ [] → selectEnvironmentChoice identifier projects = none →
      selectEnvironment identifier projects =
        (["Environment \x27" ++ identifier ++ "\x27 not found.",
          "Use \x27gcpeasy env list\x27 to see available environments."], none)) ∧
    (∀ p, selectEnvironmentChoice identifier projects = some p →
      selectEnvironment identifier projects =
        (["Switching to project: " ++ p.ProjectID], some p.ProjectID)) := by
  refine ⟨?_, ?_, ?_, ?_⟩
  · intro num hatoi h1 h2
    have hk : (num - 1).toNat < projects.length := by omega
    simp only [selectEnvironmentChoice, hatoi, if_pos (And.intro h1 h2)]
    rw [List.getElem?_eq_getElem hk]
  · intro hno
    cases hatoi : goAtoi identifier with
    | none => simp [selectEnvironmentChoice, hatoi]
    | some num =>
      have hni := hno num hatoi
      simp [selectEnvironmentChoice, hatoi, hni]
  · intro hne hnone
    have h0 : ¬ projects.length = 0 := by simpa [List.length_eq_zero] using hne
    simp [selectEnvironment, h0, hnone]
  · intro p hp
    have hne : projects ≠ [] := by
      intro h
      subst h
      have hchoice : selectEnvironmentChoice identifier [] = none := by
        cases hatoi : goAtoi identifier with
        | none => simp [selectEnvironmentChoice, hatoi]
        | some num =>
          have hc : ¬ (1 ≤ num ∧ num ≤ ((([] : List GCPProject).length) : Int)) := by
            simp only [List.length_nil]
            omega
          simp [selectEnvironmentChoice, hatoi, hc]
      rw [hchoice] at hp
      exact Option.noConfusion hp
    have h0 : ¬ projects.length = 0 := by simpa [List.length_eq_zero] using hne
    simp [selectEnvironment, h0, hp]

/-- Witness for C8: with projects [proj-a/Alpha, proj-b/Beta], "2" selects
the second by index, "proj-a" by ID, "Beta" by name, and "nope" prints the
not-found notice with no switch. -/
theorem selectEnvironment_correct_witness :
    selectEnvironmentChoice "2" [⟨"proj-a", "Alpha"⟩, ⟨"proj-b", "Beta"⟩] =
      some ⟨"proj-b", "Beta"⟩ ∧
    selectEnvironmentChoice "proj-a" [⟨"proj-a", "Alpha"⟩, ⟨"proj-b", "Beta"⟩] =
      some ⟨"proj-a", "Alpha"⟩ ∧
    selectEnvironmentChoice "Beta" [⟨"proj-a", "Alpha"⟩, ⟨"proj-b", "Beta"⟩] =
      some ⟨"proj-b", "Beta"⟩ ∧
    selectEnvironment "nope" [⟨"proj-a", "Alpha"⟩, ⟨"proj-b", "Beta"⟩] =
      (["Environment \x27nope\x27 not found.",
        "Use \x27gcpeasy env list\x27 to see available environments."], none) := by
  refine ⟨?_, ?_, ?_, ?_⟩
  · have h := (selectEnvironment_correct "2"
      [⟨"proj-a", "Alpha"⟩, ⟨"proj-b", "Beta"⟩]).1 2 (by decide) (by decide) (by decide)
    rw [h]
    rfl
  · have h := (selectEnvironment_correct "proj-a"
      [⟨"proj-a", "Alpha"⟩, ⟨"proj-b", "Beta"⟩]).2.1 ?_
    · rw [h]
      rfl
    · intro num hnum
      rw [show goAtoi "proj-a" = none from by decide] at hnum
      exact Option.noConfusion hnum
  · have h := (selectEnvironment_correct "Beta"
      [⟨"proj-a", "Alpha"⟩, ⟨"proj-b", "Beta"⟩]).2.1 ?_
    · rw [h]
      rfl
    · intro num hnum
      rw [show goAtoi "Beta" = none from by decide] at hnum
      exact Option.noConfusion hnum
  · exact (selectEnvironment_correct "nope"
      [⟨"proj-a", "Alpha"⟩, ⟨"proj-b", "Beta"⟩]).2.2.1 (by decide) (by decide)

/-- C5: the multi-pod log fan-out spawns one task per pod, errors with
"no pods provided" on an empty list (which its only caller prevents by
returning early), and — for any scheduler delivery order that is a
permutation of the task indices — the surfaced first-received error is
`nil` exactly when every per-pod log invocation succeeded. -/
theorem viewMultiplePodLogs_correct (pods : List String)
    (logErr : String → Option String) (order : List Nat) :
    (viewMultiplePodLogs [] logErr order = .error "no pods provided") ∧
    ((pods.map (taskError logErr)).length = pods.length) ∧
    (runPodLogsAllBranch [] logErr order = .ok ()) ∧
    (order.Perm (List.range pods.length) → pods ≠ [] →
      (viewMultiplePodLogs pods logErr order = .ok () ↔
        ∀ p ∈ pods, logErr p = none)) := by
  refine ⟨rfl, List.length_map _ _, rfl, ?_⟩
  intro hperm hne
  have h0 : ¬ pods.length = 0 := by simpa [List.length_eq_zero] using hne
  have key : (order.filterMap (fun i => pods[i]?.bind (taskError logErr))) = [] ↔
      ∀ p ∈ pods, logErr p = none := by
    rw [List.filterMap_eq_nil_iff]
    constructor
    · intro hall p hp
      obtain ⟨n, hn, hq⟩ := List.mem_iff_getElem.mp hp
      subst hq
      have hmem : n ∈ order := hperm.mem_iff.mpr (List.mem_range.mpr hn)
      have hx := hall n hmem
      rw [List.getElem?_eq_getElem hn] at hx
      simpa [taskError] using hx
    · intro hall i hi
      cases hgi : pods[i]? with
      | none => simp [hgi]
      | some p =>
        have hp : p ∈ pods := List.getElem?_mem hgi
        simp [hgi, taskError, hall p hp]
  simp only [viewMultiplePodLogs, if_neg h0]
  cases hh : (order.filterMap (fun i => pods[i]?.bind (taskError logErr))).head? with
  | none =>
    simp only [hh]
    constructor
    · intro _
      exact key.mp (List.head?_eq_none_iff.mp hh)
    · intro _
      trivial
  | some e =>
    simp only [hh]
    constructor
    · intro he
      exact Except.noConfusion he
    · intro hall
      rw [key.mpr hall] at hh
      exact Option.noConfusion hh

/-- Witness for C5: with two pods, a failing-free oracle and delivery
order [1, 0] (a permutation of the task indices) the fan-out returns nil;
the empty list returns "no pods provided". -/
theorem viewMultiplePodLogs_correct_witness :
    viewMultiplePodLogs ["default/a", "default/b"] (fun _ => none) [1, 0] = .ok () ∧
    viewMultiplePodLogs [] (fun _ => none) [] = .error "no pods provided" := by
  constructor
  · exact ((viewMultiplePodLogs_correct ["default/a", "default/b"]
      (fun _ => none) [1, 0]).2.2.2 (by decide) (by decide)).mpr (fun p _ => rfl)
  · exact (viewMultiplePodLogs_correct [] (fun _ => none) []).1

end Gcpeasy
